import Mathlib

/-!
Verification development for the Claude-Jarvis-App streaming relay.

The definitions below are a shallow embedding of the repository's
JavaScript source:

* `ws/protocol.mjs` — the frame codec (`parseClientMessage` and the
  `create*Message` constructors);
* `tts/index.mjs` — the synthesis fallback orchestrator, in both of its
  source variants (`TTSv1` for the two-provider variant, `TTSv2` for the
  chain variant exporting `FALLBACK_ORDER`);
* `tts/mock.mjs` — the deterministic mock synthesis provider;
* `llm/index.mjs` — the generation fallback orchestrator
  (`shouldFallback`, `generateWithFallback`);
* `ws/handler.mjs` — the per-connection speak handler.

JavaScript values that matter to control flow (truthiness, field access
on parsed JSON, extra function arguments being dropped) are modelled
explicitly.  Nondeterministic inputs of the source (timestamps, random
latencies, generated correlation ids, the platform `Math.sin`) are
passed in as parameters so that theorems can quantify over them.
-/

/-- A JSON value, as produced by `JSON.parse`.  Objects are ordered
field lists, matching JavaScript object key order; lookups take the
first matching key. -/
inductive JVal where
  | str (s : String)
  | num (n : Int)
  | bool (b : Bool)
  | null
  | arr (xs : List JVal)
  | obj (fields : List (String × JVal))
deriving Repr

/-- A JavaScript object modelled as its ordered field list. -/
abbrev JObj := List (String × JVal)

namespace JVal

/-- JavaScript truthiness of a value (`undefined` is modelled by
`Option.none` at use sites). -/
def truthy : JVal → Bool
  | .str s => s ≠ ""
  | .num n => n ≠ 0
  | .bool b => b
  | .null => false
  | .arr _ => true
  | .obj _ => true

end JVal

/-- Truthiness of a possibly-undefined value: `undefined` and all falsy
values are `false`. -/
def jsTruthy : Option JVal → Bool
  | none => false
  | some v => v.truthy

/-- Property access `o[k]` on a parsed JSON value that is not `null`:
object lookup, `undefined` for primitives and arrays.  (Access on
`null` throws in JavaScript and is handled separately at the one call
site, inside its `try`.) -/
def jsGet (v : JVal) (k : String) : Option JVal :=
  match v with
  | .obj fields => fields.lookup k
  | _ => none

/-- `a || b` on strings: the left operand unless it is falsy
(`undefined` or the empty string). -/
def jsOrStr : Option String → String → String
  | none, d => d
  | some s, d => if s = "" then d else s

/-- Truthiness of a possibly-undefined string. -/
def jsStrTruthy : Option String → Bool
  | none => false
  | some s => s ≠ ""

/-! ## Frame codec (`ws/protocol.mjs`) -/

namespace Protocol

/-- Result of `parseClientMessage`: the `{ valid, message?, error? }`
record returned by the source. -/
structure ParseResult where
  valid : Bool
  message : Option JVal
  error : Option String
deriving Repr

/-- `parseClientMessage(raw)`.  The raw string has already gone through
`JSON.parse`, modelled as `Option JVal` (`none` when `JSON.parse`
throws).  A parsed top-level `null` also lands in the `catch` branch,
because `msg.type` throws on `null`; every other value reaches the
validation `switch`. -/
def parseClientMessage (parsed : Option JVal) : ParseResult :=
  match parsed with
  | none => ⟨false, none, some "Invalid JSON"⟩
  | some .null => ⟨false, none, some "Invalid JSON"⟩
  | some msg =>
    if !jsTruthy (jsGet msg "type") then
      ⟨false, none, some "Missing message type"⟩
    else
      match jsGet msg "type" with
      | some (.str s) =>
        if s = "session.bind" then
          if !jsTruthy (jsGet msg "user_id") || !jsTruthy (jsGet msg "session_id") then
            ⟨false, none, some "session.bind requires user_id and session_id"⟩
          else ⟨true, some msg, none⟩
        else if s = "assistant.speak" then
          if !jsTruthy (jsGet msg "text") ||
              (match jsGet msg "text" with | some (.str _) => false | _ => true) then
            ⟨false, none, some "assistant.speak requires text string"⟩
          else ⟨true, some msg, none⟩
        else if s = "ping" then ⟨true, some msg, none⟩
        else ⟨false, none, some "Unknown message type"⟩
      | _ => ⟨false, none, some "Unknown message type"⟩

/-- `createAudioEndMessage(totalFrames, provider)`.  The generation
timestamp (`new Date().toISOString()`) is a parameter. -/
def createAudioEndMessage (totalFrames : Nat) (provider : String) (ts : String) : JObj :=
  [("type", .str "audio.end"),
   ("total_frames", .num totalFrames),
   ("provider", .str provider),
   ("timestamp", .str ts)]

/-- `createProviderSwitchedMessage(from, to)`. -/
def createProviderSwitchedMessage (src dst : String) (ts : String) : JObj :=
  [("type", .str "provider.switched"),
   ("from", .str src),
   ("to", .str dst),
   ("timestamp", .str ts)]

/-- `createErrorMessage(code, message)`. -/
def createErrorMessage (code msg : String) (ts : String) : JObj :=
  [("type", .str "error"),
   ("code", .str code),
   ("message", .str msg),
   ("timestamp", .str ts)]

/-- The handler's call
`createAudioEndMessage(frameCount, provider, codec, sampleRate, channels, correlationId)`:
the function is declared with two parameters, so JavaScript drops the
four extra arguments. -/
def handlerAudioEndCall (frameCount : Nat) (provider : String)
    (_codec : Option String) (_sampleRate : Option Nat) (_channels : Option Nat)
    (_correlationId : String) (ts : String) : JObj :=
  createAudioEndMessage frameCount provider ts

/-- The handler's call
`createProviderSwitchedMessage(event.from, event.to, correlationId)`:
the function is declared with two parameters, so JavaScript drops the
extra correlation-id argument. -/
def handlerProviderSwitchedCall (src dst : String) (_correlationId : String)
    (ts : String) : JObj :=
  createProviderSwitchedMessage src dst ts

end Protocol

/-! ## Synthesis data model (`tts/types.mjs`, `tts/*.mjs`) -/

namespace TTS

/-- An audio frame as yielded by a provider's `stream` generator: raw
bytes (modelled as an opaque chunk tag), the provider's own sequence
number, and format metadata. -/
structure AudioFrame where
  data : String
  seq : Nat
  codec : String
  sample_rate_hz : Nat
  channels : Nat
deriving Repr, DecidableEq

/-- One run of a provider's `stream(options)` generator, as observed by
the orchestrator: the provider reports availability, yields some chunks
in order, and then either completes or raises an error.  `name` is the
provider object's own `name` field. -/
structure ProviderBehavior where
  name : String
  available : Bool
  chunks : List String
  codec : String
  sample_rate_hz : Nat
  channels : Nat
  fails : Option String
deriving Repr, DecidableEq

/-- Each provider numbers its own frames with a local counter
(`let seq = 0; ... seq: seq++` in every provider source). -/
def numberFrames (codec : String) (sr ch : Nat) : List String → Nat → List AudioFrame
  | [], _ => []
  | d :: rest, s => ⟨d, s, codec, sr, ch⟩ :: numberFrames codec sr ch rest (s + 1)

/-- The frames a provider's stream yields before completing or raising. -/
def ProviderBehavior.frames (p : ProviderBehavior) : List AudioFrame :=
  numberFrames p.codec p.sample_rate_hz p.channels p.chunks 0

/-- An event yielded by `streamWithFallback`:
`{type:'audio'} | {type:'provider_switched'} | {type:'error'}`. -/
inductive Event where
  | audio (frame : AudioFrame) (provider : String)
  | switched (src dst : String)
  | error (err : String) (provider : String)
deriving Repr, DecidableEq

/-- The sequence numbers of the audio events of a run, in order. -/
def audioSeqs : List Event → List Nat
  | [] => []
  | .audio f _ :: rest => f.seq :: audioSeqs rest
  | .switched _ _ :: rest => audioSeqs rest
  | .error _ _ :: rest => audioSeqs rest

/-- The providers of the audio events of a run, in order. -/
def audioProviders : List Event → List String
  | [] => []
  | .audio _ p :: rest => p :: audioProviders rest
  | .switched _ _ :: rest => audioProviders rest
  | .error _ _ :: rest => audioProviders rest

/-- The `provider_switched` events of a run. -/
def switchEvents : List Event → List Event
  | [] => []
  | e@(.switched _ _) :: rest => e :: switchEvents rest
  | .audio _ _ :: rest => switchEvents rest
  | .error _ _ :: rest => switchEvents rest

/-- The `error` events of a run. -/
def errorEvents : List Event → List Event
  | [] => []
  | e@(.error _ _) :: rest => e :: errorEvents rest
  | .audio _ _ :: rest => errorEvents rest
  | .switched _ _ :: rest => errorEvents rest

end TTS

/-! ## Fallback orchestrator, chain variant (`tts/index.mjs` with
`FALLBACK_ORDER`, the variant the repository's `tts-fallback` tests
import) -/

namespace TTSv2

open TTS

/-- `FALLBACK_ORDER = ['fishaudio', 'cartesia', 'elevenlabs']`. -/
def FALLBACK_ORDER : List String := ["fishaudio", "cartesia", "elevenlabs"]

/-- `Array.prototype.indexOf`, as an option. -/
def idxOf : List String → String → Option Nat
  | [], _ => none
  | x :: rest, s =>
    if x = s then some 0
    else match idxOf rest s with
      | none => none
      | some i => some (i + 1)

/-- `getFallbackChain(startProvider)`: the providers after
`startProvider` in `FALLBACK_ORDER`, `[]` when it is absent or last. -/
def getFallbackChain (startProvider : String) : List String :=
  match idxOf FALLBACK_ORDER startProvider with
  | none => []
  | some i =>
    if i + 1 ≥ FALLBACK_ORDER.length then []
    else FALLBACK_ORDER.drop (i + 1)

/-- The provider registry `providers = {cartesia, fishaudio, elevenlabs,
mock}`, each with its current behavior. -/
structure Registry where
  cartesia : ProviderBehavior
  fishaudio : ProviderBehavior
  elevenlabs : ProviderBehavior
  mock : ProviderBehavior

/-- `providers[name]`: `undefined` for unknown names. -/
def Registry.lookup (r : Registry) : String → Option ProviderBehavior
  | "cartesia" => some r.cartesia
  | "fishaudio" => some r.fishaudio
  | "elevenlabs" => some r.elevenlabs
  | "mock" => some r.mock
  | _ => none

/-- The `for (const providerName of providerChain)` loop of
`streamWithFallback`, with the `startProvider` and `lastError`
accumulators.  A provider that is missing from the registry or
unavailable is skipped without touching `startProvider`; the first
available provider sets it; every later available provider first yields
`provider_switched` from `startProvider`.  A successful stream ends the
generator; a failing one records its error and continues.  When the
chain is exhausted, a single terminal error event is yielded. -/
def runChain (r : Registry) : List String → Option String → Option String → List Event
  | [], _, some e => [.error e "all"]
  | [], _, none => [.error "No TTS providers available" "none"]
  | n :: rest, start, lastErr =>
    match r.lookup n with
    | none => runChain r rest start lastErr
    | some p =>
      if !p.available then runChain r rest start lastErr
      else
        let intro : List Event :=
          match start with
          | none => []
          | some s => [.switched s n]
        let frames := p.frames.map (Event.audio · n)
        match p.fails with
        | none => intro ++ frames
        | some e => intro ++ frames ++ runChain r rest (some (start.getD n)) (some e)

/-- `streamWithFallback(options, preferredProvider)` of the chain
variant: compute the provider chain from the preferred provider (or the
`TTS_PROVIDER` environment variable, defaulting to `'fishaudio'`); a
truthy preferred provider outside `FALLBACK_ORDER` replaces the chain
with itself alone; then walk the chain. -/
def streamWithFallback (r : Registry) (envPrimary preferred : Option String) :
    List Event :=
  let primaryName := jsOrStr preferred (jsOrStr envPrimary "fishaudio")
  let chain0 := primaryName :: getFallbackChain primaryName
  let chain :=
    if jsStrTruthy preferred && !FALLBACK_ORDER.contains (preferred.getD "") then
      [preferred.getD ""]
    else chain0
  runChain r chain none none

end TTSv2

/-! ## Fallback orchestrator, two-provider variant (`tts/index.mjs`
with the hardcoded ElevenLabs fallback) -/

namespace TTSv1

open TTS

/-- The provider registry `providers = {cartesia, elevenlabs, mock}`. -/
structure Registry where
  cartesia : ProviderBehavior
  elevenlabs : ProviderBehavior
  mock : ProviderBehavior

/-- `providers[name]`. -/
def Registry.lookup (r : Registry) : String → Option ProviderBehavior
  | "cartesia" => some r.cartesia
  | "elevenlabs" => some r.elevenlabs
  | "mock" => some r.mock
  | _ => none

/-- `getActiveProvider()`: mock if available, else the configured
primary (`TTS_PROVIDER` or `'cartesia'`) if present and available, else
ElevenLabs if available, else throw (`none`). -/
def getActiveProvider (r : Registry) (envPrimary : Option String) :
    Option ProviderBehavior :=
  if r.mock.available then some r.mock
  else
    let primaryName := jsOrStr envPrimary "cartesia"
    match r.lookup primaryName with
    | some p =>
      if p.available then some p
      else if r.elevenlabs.available then some r.elevenlabs else none
    | none => if r.elevenlabs.available then some r.elevenlabs else none

/-- The `try { for await ... } catch (error) { ... }` block of the
two-provider `streamWithFallback`, run with `currentProvider = current`.
On a stream error the orchestrator retries once on ElevenLabs
(restarting synthesis from the start of the text) unless the failing
provider already was ElevenLabs; on a successful retry it yields
`provider_switched` after the retried frames; when the retry also fails
it yields the retry error and then the original error, both tagged with
the reassigned `currentProvider.name` (ElevenLabs). -/
def attempt (r : Registry) (current : ProviderBehavior) : List Event :=
  let startProvider := current.name
  let firstFrames := current.frames.map (Event.audio · current.name)
  match current.fails with
  | none => firstFrames
  | some e =>
    if current.name ≠ "elevenlabs" then
      if r.elevenlabs.available then
        let retryFrames := r.elevenlabs.frames.map (Event.audio · r.elevenlabs.name)
        match r.elevenlabs.fails with
        | none =>
          firstFrames ++ retryFrames ++ [.switched startProvider "elevenlabs"]
        | some fe =>
          firstFrames ++ retryFrames ++
            [.error fe "elevenlabs", .error e r.elevenlabs.name]
      else firstFrames ++ [.error e current.name]
    else firstFrames ++ [.error e current.name]

/-- `streamWithFallback(options, preferredProvider)` of the two-provider
variant.  `none` models `getActiveProvider` throwing before any event;
a truthy preferred provider that exists and is available replaces the
active provider; then the stream-and-retry block runs. -/
def streamWithFallback (r : Registry) (envPrimary preferred : Option String) :
    Option (List Event) :=
  match getActiveProvider r envPrimary with
  | none => none
  | some active =>
    let current :=
      if jsStrTruthy preferred && (r.lookup (preferred.getD "")).isSome then
        match r.lookup (preferred.getD "") with
        | some req => if req.available then req else active
        | none => active
      else active
    some (attempt r current)

end TTSv1

/-! ## Mock synthesis provider (`tts/mock.mjs`) -/

namespace MockTTS

/-- `MOCK_SAMPLE_RATE * CHUNK_DURATION_MS / 1000 = 800` samples per
50 ms chunk. -/
def CHUNK_SAMPLES : Nat := 800

/-- A JavaScript `\s` whitespace character (the ASCII portion; the
inputs of interest contain no exotic Unicode spaces). -/
def isJsWs (c : Char) : Bool :=
  c = ' ' || c = '\t' || c = '\n' || c = '\r' || c = '\x0b' || c = '\x0c'

/-- Number of maximal whitespace runs in a character list. -/
def wsRuns : List Char → Bool → Nat
  | [], _ => 0
  | c :: rest, prevWs =>
    if isJsWs c then (if prevWs then 0 else 1) + wsRuns rest true
    else wsRuns rest false

/-- `text.split(/\s+/).length`: one more than the number of maximal
whitespace runs (a leading or trailing run contributes an empty
segment, exactly as in JavaScript). -/
def wordCount (text : String) : Nat := wsRuns text.toList false + 1

/-- `text.split('').reduce((acc, c) => acc + c.charCodeAt(0), 0)`:
the sum of the UTF-16 code units (equal to the code points for the
basic-multilingual-plane texts at issue). -/
def textHash (text : String) : Nat := (text.toList.map Char.toNat).sum

/-- `Math.max(500, wordCount * 100)`. -/
def durationMs (text : String) : Nat := max 500 (wordCount text * 100)

/-- `Math.ceil(durationMs / CHUNK_DURATION_MS)` with 50 ms chunks. -/
def totalChunks (text : String) : Nat := (durationMs text + 49) / 50

/-- `200 + textHash % 400`. -/
def frequency (text : String) : Nat := 200 + textHash text % 400

/-- The body of the `for (let chunk = 0; ...)` loop of
`MockTTSProvider.stream`.  Each iteration first awaits a random
latency (`10 + Math.random() * 20` ms) — modelled by consuming the head
of `delays`, which affects nothing else — then yields one frame whose
samples are `generateSineWave(frequency, CHUNK_SAMPLES, sampleOffset)`.
The platform's `Math.floor(amplitude * Math.sin ...)` computation is the
parameter `sine`, a fixed function of frequency, sample count and
offset. -/
def streamLoop (sine : Nat → Nat → Nat → String) (freq : Nat) (delays : List Nat) :
    Nat → Nat → Nat → List TTS.AudioFrame
  | 0, _, _ => []
  | remaining + 1, seq, sampleOffset =>
    let _latency := delays.headD 0
    ⟨sine freq CHUNK_SAMPLES sampleOffset, seq, "pcm_16000", 16000, 1⟩ ::
      streamLoop sine freq delays.tail remaining (seq + 1) (sampleOffset + CHUNK_SAMPLES)

/-- `MockTTSProvider.stream(options)`: `none` models the throw when the
provider is not enabled; otherwise the yielded frame list. -/
def stream (sine : Nat → Nat → Nat → String) (enabled : Bool) (text : String)
    (delays : List Nat) : Option (List TTS.AudioFrame) :=
  if !enabled then none
  else some (streamLoop sine (frequency text) delays (totalChunks text) 0 0)

end MockTTS

/-! ## Generation fallback orchestrator (`llm/index.mjs`) -/

namespace LLM

/-- An error thrown by a provider's `generate`: the `message` string and
the optional HTTP `status`. -/
structure LLMError where
  message : String
  status : Option Nat
deriving Repr, DecidableEq

/-- `String.prototype.includes`. -/
def strIncludes (s sub : String) : Bool :=
  (s.toList.tails.map (sub.toList.isPrefixOf ·)).any id

/-- `LLM_FALLBACK_ORDER = ['openai', 'gemini']`. -/
def LLM_FALLBACK_ORDER : List String := ["openai", "gemini"]

/-- `MOCK_FALLBACK_ORDER = ['mock']`. -/
def MOCK_FALLBACK_ORDER : List String := ["mock"]

/-- `FALLBACK_ERROR_CODES = [401, 403, 429, 500, 502, 503, 504]`. -/
def FALLBACK_ERROR_CODES : List Nat := [401, 403, 429, 500, 502, 503, 504]

/-- `shouldFallback(error)`: network failures, the listed HTTP status
codes, and "not configured" providers are retryable; everything else is
fatal. -/
def shouldFallback (e : LLMError) : Bool :=
  if strIncludes e.message "fetch" || strIncludes e.message "network" then true
  else if (match e.status with
           | some s => FALLBACK_ERROR_CODES.contains s
           | none => false) then true
  else if strIncludes e.message "not configured" then true
  else false

/-- One run of a provider's `generate(request)`: availability plus
either a response object or a thrown error. -/
structure ProviderBehavior where
  available : Bool
  result : Except LLMError JObj

/-- The provider registry `providers = {mock, openai, gemini}`. -/
structure Registry where
  mock : ProviderBehavior
  openai : ProviderBehavior
  gemini : ProviderBehavior

/-- `providers[name]`. -/
def Registry.lookup (r : Registry) : String → Option ProviderBehavior
  | "mock" => some r.mock
  | "openai" => some r.openai
  | "gemini" => some r.gemini
  | _ => none

/-- `o[k] = v` on a JavaScript object: overwrite in place when the key
exists, append otherwise (the semantics of spreading and then adding
named fields). -/
def setKey (o : JObj) (k : String) (v : JVal) : JObj :=
  if (o.lookup k).isSome then
    o.map fun kv => if kv.1 = k then (k, v) else kv
  else o ++ [(k, v)]

/-- The outcome of `generateWithFallback`: the returned object, a
rethrown fatal error, the aggregated all-providers-failed error with its
`provider_errors` list, or an uncaught `TypeError` from looking up a
provider missing from the registry (unreachable for the chains the
source builds). -/
inductive GenOutcome where
  | ok (result : JObj)
  | fatal (e : LLMError)
  | exhausted (provider_errors : List (String × LLMError))
  | crash
deriving Repr

/-- The `for (const providerName of providerChain)` loop of
`generateWithFallback`, with the `errors` and `fallbackUsed`
accumulators.  An unavailable provider is skipped; a successful one
returns `{...response, fallback_used, correlation_id}`; a failing one
records its error and continues when `shouldFallback`, and otherwise
rethrows, aborting the chain. -/
def genLoop (r : Registry) (cid : String) :
    List String → List (String × LLMError) → Bool → GenOutcome
  | [], errors, _ => .exhausted errors
  | n :: rest, errors, fallbackUsed =>
    match r.lookup n with
    | none => .crash
    | some p =>
      if !p.available then genLoop r cid rest errors fallbackUsed
      else
        match p.result with
        | .ok response =>
          .ok (setKey (setKey response "fallback_used" (.bool fallbackUsed))
                "correlation_id" (.str cid))
        | .error e =>
          if shouldFallback e then
            genLoop r cid rest (errors ++ [(n, e)]) true
          else .fatal e

/-- `generateWithFallback(request, options)`: pick the mock chain in
mock mode, else the fixed chain; a forced provider present in the
registry replaces the chain with itself alone; then run the loop.  The
correlation id (caller-supplied or freshly generated) is `cid`. -/
def generateWithFallback (r : Registry) (mockMode : Bool)
    (forceProvider : Option String) (cid : String) : GenOutcome :=
  let chain0 := if mockMode then MOCK_FALLBACK_ORDER else LLM_FALLBACK_ORDER
  let chain :=
    if jsStrTruthy forceProvider && (r.lookup (forceProvider.getD "")).isSome then
      [forceProvider.getD ""]
    else chain0
  genLoop r cid chain [] false

end LLM

/-! ## Connection speak handler (`ws/handler.mjs`) -/

namespace Handler

open TTS

/-- The per-connection `ClientState`. -/
structure ClientState where
  userId : Option String
  sessionId : Option String
  isSpeaking : Bool
deriving Repr, DecidableEq

/-- A server-to-client message, reduced to the fields the claims are
about. -/
inductive OutMsg where
  | errorMsg (code msg : String)
  | transcriptDelta (text : String) (is_final : Bool)
  | audioFrame (frame : AudioFrame)
  | audioEnd (total_frames : Nat) (provider : String)
  | providerSwitched (src dst : String)
deriving Repr, DecidableEq

/-- The number of audio events forwarded (the handler's `frameCount`). -/
def frameCount (events : List Event) : Nat := (audioSeqs events).length

/-- The handler's `lastProvider` after consuming the events: the
provider of the last forwarded audio frame, if any. -/
def lastProvider (events : List Event) : Option String :=
  (audioProviders events).getLast?

/-- Translation of one orchestrator event into the message the handler
sends for it. -/
def eventOut : Event → OutMsg
  | .audio f _ => .audioFrame f
  | .switched src dst => .providerSwitched src dst
  | .error _ _ => .errorMsg "TTS_ERROR" "Voice synthesis failed"

/-- `handleAssistantSpeak(socket, state, message)`, modelled for an
execution in which the socket stays open and no abort fires: the two
rejection guards, then the transcript delta, the per-event messages and
the final `audio.end` with `lastProvider || 'unknown'`; the `finally`
block restores `isSpeaking`.  The orchestrator's events are the
parameter `events`.  Returns the final state and the messages sent. -/
def handleAssistantSpeak (st : ClientState) (text : String)
    (events : List Event) : ClientState × List OutMsg :=
  if st.isSpeaking then
    (st, [.errorMsg "ALREADY_SPEAKING" "Already speaking, wait for audio.end"])
  else if !jsStrTruthy st.sessionId then
    (st, [.errorMsg "NOT_BOUND" "Call session.bind first"])
  else
    ({ st with isSpeaking := false },
      .transcriptDelta text true :: events.map eventOut ++
        [.audioEnd (frameCount events) ((lastProvider events).getD "unknown")])

end Handler

/-! ## Helper lemmas about event lists -/

namespace TTS

theorem audioSeqs_append (a b : List Event) :
    audioSeqs (a ++ b) = audioSeqs a ++ audioSeqs b := by
  induction a with
  | nil => rfl
  | cons e rest ih => cases e <;> simp [audioSeqs, ih]

theorem audioSeqs_map_audio (fs : List AudioFrame) (n : String) :
    audioSeqs (fs.map (Event.audio · n)) = fs.map (·.seq) := by
  induction fs with
  | nil => rfl
  | cons f rest ih => simp [audioSeqs, ih]

theorem audioProviders_append (a b : List Event) :
    audioProviders (a ++ b) = audioProviders a ++ audioProviders b := by
  induction a with
  | nil => rfl
  | cons e rest ih => cases e <;> simp [audioProviders, ih]

theorem audioProviders_map_audio (fs : List AudioFrame) (n : String) :
    audioProviders (fs.map (Event.audio · n)) = List.replicate fs.length n := by
  induction fs with
  | nil => rfl
  | cons f rest ih => simp [audioProviders, ih, List.replicate]

theorem switchEvents_append (a b : List Event) :
    switchEvents (a ++ b) = switchEvents a ++ switchEvents b := by
  induction a with
  | nil => rfl
  | cons e rest ih => cases e <;> simp [switchEvents, ih]

theorem switchEvents_map_audio (fs : List AudioFrame) (n : String) :
    switchEvents (fs.map (Event.audio · n)) = [] := by
  induction fs with
  | nil => rfl
  | cons f rest ih => simpa [switchEvents] using ih

theorem errorEvents_append (a b : List Event) :
    errorEvents (a ++ b) = errorEvents a ++ errorEvents b := by
  induction a with
  | nil => rfl
  | cons e rest ih => cases e <;> simp [errorEvents, ih]

theorem errorEvents_map_audio (fs : List AudioFrame) (n : String) :
    errorEvents (fs.map (Event.audio · n)) = [] := by
  induction fs with
  | nil => rfl
  | cons f rest ih => simpa [errorEvents] using ih

theorem numberFrames_map_seq (codec : String) (sr ch : Nat) (l : List String) (s : Nat) :
    (numberFrames codec sr ch l s).map (·.seq) = List.range' s l.length := by
  induction l generalizing s with
  | nil => rfl
  | cons d rest ih => simp [numberFrames, List.range', ih]

theorem frames_map_seq (p : ProviderBehavior) :
    p.frames.map (·.seq) = List.range p.chunks.length := by
  rw [ProviderBehavior.frames, numberFrames_map_seq, List.range_eq_range']

theorem frames_length (p : ProviderBehavior) : p.frames.length = p.chunks.length := by
  have := congrArg List.length (frames_map_seq p)
  simpa using this

end TTS

/-! ## Concrete provider behaviors used by counterexamples and
witnesses -/

/-- A disabled mock provider (`TTS_MOCK_MODE` unset). -/
def mockOff : TTS.ProviderBehavior := ⟨"mock", false, [], "pcm_16000", 16000, 1, none⟩

/-- Cartesia available, yielding two frames and then raising. -/
def cartesiaFailsMid : TTS.ProviderBehavior :=
  ⟨"cartesia", true, ["c0", "c1"], "pcm_16000", 16000, 1, some "cartesia ws closed"⟩

/-- Cartesia available, yielding one frame and then raising. -/
def cartesiaFailsOne : TTS.ProviderBehavior :=
  ⟨"cartesia", true, ["c0"], "pcm_16000", 16000, 1, some "cartesia ws closed"⟩

/-- Cartesia available and completing successfully. -/
def cartesiaOk : TTS.ProviderBehavior :=
  ⟨"cartesia", true, ["c0", "c1", "c2"], "pcm_16000", 16000, 1, none⟩

/-- Fish Audio available, yielding one frame and then raising. -/
def fishFailsOne : TTS.ProviderBehavior :=
  ⟨"fishaudio", true, ["f0"], "mp3", 44100, 1, some "fishaudio timeout"⟩

/-- ElevenLabs available and completing successfully. -/
def elevenOk : TTS.ProviderBehavior :=
  ⟨"elevenlabs", true, ["e0", "e1"], "mp3", 44100, 1, none⟩

/-- ElevenLabs unavailable (missing credentials). -/
def elevenOff : TTS.ProviderBehavior :=
  ⟨"elevenlabs", false, ["e0"], "mp3", 44100, 1, none⟩

/-! ## C1 — frame sequence numbering across provider switches -/

/-- Helper for C1: in the two-provider orchestrator, however the
stream-and-retry block resolves, the audio sequence numbers are a
concatenation of blocks each counted from 0 — one block per provider
attempt. -/
theorem TTSv1.attempt_seqs (r : TTSv1.Registry) (cur : TTS.ProviderBehavior) :
    ∃ ks : List Nat,
      TTS.audioSeqs (TTSv1.attempt r cur) = (ks.map List.range).flatten := by
  unfold TTSv1.attempt
  cases cur.fails with
  | none =>
    exact ⟨[cur.chunks.length], by
      simp [TTS.audioSeqs_map_audio, TTS.frames_map_seq]⟩
  | some e =>
    by_cases hname : cur.name = "elevenlabs"
    · exact ⟨[cur.chunks.length], by
        simp [hname, TTS.audioSeqs_append, TTS.audioSeqs_map_audio,
          TTS.frames_map_seq, TTS.audioSeqs]⟩
    · by_cases havail : r.elevenlabs.available
      · cases hf : r.elevenlabs.fails with
        | none =>
          exact ⟨[cur.chunks.length, r.elevenlabs.chunks.length], by
            simp [hname, havail, hf, TTS.audioSeqs_append,
              TTS.audioSeqs_map_audio, TTS.frames_map_seq, TTS.audioSeqs]⟩
        | some fe =>
          exact ⟨[cur.chunks.length, r.elevenlabs.chunks.length], by
            simp [hname, havail, hf, TTS.audioSeqs_append,
              TTS.audioSeqs_map_audio, TTS.frames_map_seq, TTS.audioSeqs]⟩
      · have hv : r.elevenlabs.available = false := by
          simpa using havail
        exact ⟨[cur.chunks.length], by
          simp [hname, hv, TTS.audioSeqs_append, TTS.audioSeqs_map_audio,
            TTS.frames_map_seq, TTS.audioSeqs]⟩

/-- C1 (counterexample): with the mock disabled, Cartesia failing after
two frames and ElevenLabs succeeding with two frames, the single speak
stream's audio sequence numbers are `[0, 1, 0, 1]`: the retried
provider's frames restart at 0, so the sequence is neither gap-free
relative to `0,1,2,3` nor duplicate-free.  The claim that the counter
is never reset to 0 on a provider switch is false. -/
theorem C1_counterexample :
    TTS.audioSeqs
        ((TTSv1.streamWithFallback ⟨cartesiaFailsMid, elevenOk, mockOff⟩
          none none).getD []) = [0, 1, 0, 1] ∧
      ([0, 1, 0, 1] : List Nat) ≠ List.range 4 ∧
      ¬ ([0, 1, 0, 1] : List Nat).Nodup := by
  refine ⟨by decide, by decide, by decide⟩

/-- C1 (amended): for any provider behaviors and any provider
selection, the audio frame sequence numbers of a single
`streamWithFallback` stream form a concatenation of per-attempt blocks,
each contiguous from 0 — the counter restarts at 0 whenever synthesis
restarts on the next provider, rather than continuing across the
switch. -/
theorem C1_theorem (r : TTSv1.Registry) (envPrimary preferred : Option String) :
    ∃ ks : List Nat,
      TTS.audioSeqs ((TTSv1.streamWithFallback r envPrimary preferred).getD []) =
        (ks.map List.range).flatten := by
  unfold TTSv1.streamWithFallback
  cases hact : TTSv1.getActiveProvider r envPrimary with
  | none => exact ⟨[], rfl⟩
  | some active => exact TTSv1.attempt_seqs r _

/-! ## C2 — provider-switched notification on mid-stream failure -/

/-- Helper: a nonempty replicate ends in its element. -/
theorem getLast?_replicate_succ (k : Nat) (n : String) :
    (List.replicate (k + 1) n).getLast? = some n := by
  rw [List.replicate_succ', List.getLast?_append_of_ne_nil _ (by simp)]
  rfl

/-- Helper: the handler's `lastProvider` after a run that ends with a
nonempty block of frames from provider `n` is `n`. -/
theorem Handler.lastProvider_trailing (a : List TTS.Event)
    (fs : List TTS.AudioFrame) (n : String) (h : fs ≠ []) :
    Handler.lastProvider (a ++ fs.map (TTS.Event.audio · n)) = some n := by
  unfold Handler.lastProvider
  rw [TTS.audioProviders_append, TTS.audioProviders_map_audio,
    List.getLast?_append_of_ne_nil _ (by simpa using h)]
  cases fs with
  | nil => exact absurd rfl h
  | cons f rest => exact getLast?_replicate_succ rest.length n

/-- C2 (counterexample): with Fish Audio failing after one frame,
Cartesia failing after one frame and ElevenLabs succeeding, the switch
notification emitted after Cartesia's failed attempt names
`fishaudio → elevenlabs`: its `from` field is the stream's first
attempted provider, not the provider that just failed, so no emitted
notification names the failed Cartesia at all.  The claim that each
notification names the failed provider is false. -/
theorem C2_counterexample :
    TTSv2.streamWithFallback ⟨cartesiaFailsOne, fishFailsOne, elevenOk, mockOff⟩
        none none =
      [.audio ⟨"f0", 0, "mp3", 44100, 1⟩ "fishaudio",
       .switched "fishaudio" "cartesia",
       .audio ⟨"c0", 0, "pcm_16000", 16000, 1⟩ "cartesia",
       .switched "fishaudio" "elevenlabs",
       .audio ⟨"e0", 0, "mp3", 44100, 1⟩ "elevenlabs",
       .audio ⟨"e1", 1, "mp3", 44100, 1⟩ "elevenlabs"] ∧
      TTS.Event.switched "cartesia" "elevenlabs" ∉
        TTSv2.streamWithFallback ⟨cartesiaFailsOne, fishFailsOne, elevenOk, mockOff⟩
          none none := by
  refine ⟨by decide, by decide⟩

/-- C2 (amended): in the chain orchestrator, whenever the first
attempted provider (the configured primary, Fish Audio) fails
mid-stream and the next candidate (Cartesia) is available and succeeds,
exactly one `provider_switched` event is emitted; it names the first
attempted provider and the next candidate, and it is emitted before any
frame of the next candidate, which restarts synthesis of the full text
(its frames restart at sequence 0); the handler's `audio.end` then
reports the succeeding candidate. -/
theorem C2_theorem (r : TTSv2.Registry) (e : String)
    (hfa : r.fishaudio.available = true) (hff : r.fishaudio.fails = some e)
    (hca : r.cartesia.available = true) (hcf : r.cartesia.fails = none)
    (hcne : r.cartesia.chunks ≠ []) :
    TTSv2.streamWithFallback r none none =
        r.fishaudio.frames.map (TTS.Event.audio · "fishaudio") ++
          [.switched "fishaudio" "cartesia"] ++
          r.cartesia.frames.map (TTS.Event.audio · "cartesia") ∧
      TTS.switchEvents (TTSv2.streamWithFallback r none none) =
        [.switched "fishaudio" "cartesia"] ∧
      Handler.lastProvider (TTSv2.streamWithFallback r none none) =
        some "cartesia" := by
  have hrun : TTSv2.streamWithFallback r none none =
      r.fishaudio.frames.map (TTS.Event.audio · "fishaudio") ++
        [.switched "fishaudio" "cartesia"] ++
        r.cartesia.frames.map (TTS.Event.audio · "cartesia") := by
    simp [TTSv2.streamWithFallback, TTSv2.getFallbackChain, TTSv2.idxOf,
      TTSv2.FALLBACK_ORDER, TTSv2.runChain, TTSv2.Registry.lookup,
      jsOrStr, jsStrTruthy, hfa, hff, hca, hcf]
  refine ⟨hrun, ?_, ?_⟩
  · rw [hrun, TTS.switchEvents_append, TTS.switchEvents_append,
      TTS.switchEvents_map_audio, TTS.switchEvents_map_audio]
    rfl
  · rw [hrun]
    refine Handler.lastProvider_trailing _ _ _ ?_
    intro hnil
    apply hcne
    have hlen : r.cartesia.chunks.length = 0 := by
      have hl := congrArg List.length hnil
      rw [TTS.frames_length] at hl
      simpa using hl
    exact List.length_eq_zero.mp hlen

/-- C2 (witness): the amended theorem evaluated with Fish Audio failing
after one frame and Cartesia succeeding with three frames. -/
theorem C2_witness :
    TTSv2.streamWithFallback ⟨cartesiaOk, fishFailsOne, elevenOk, mockOff⟩
        none none =
        fishFailsOne.frames.map (TTS.Event.audio · "fishaudio") ++
          [.switched "fishaudio" "cartesia"] ++
          cartesiaOk.frames.map (TTS.Event.audio · "cartesia") ∧
      TTS.switchEvents
          (TTSv2.streamWithFallback ⟨cartesiaOk, fishFailsOne, elevenOk, mockOff⟩
            none none) = [.switched "fishaudio" "cartesia"] ∧
      Handler.lastProvider
          (TTSv2.streamWithFallback ⟨cartesiaOk, fishFailsOne, elevenOk, mockOff⟩
            none none) = some "cartesia" :=
  C2_theorem ⟨cartesiaOk, fishFailsOne, elevenOk, mockOff⟩ "fishaudio timeout"
    rfl rfl rfl rfl (by decide)

/-! ## C3 — candidate chain computation -/

/-- C3 (counterexample): an `assistant.speak` naming the explicit,
non-disabled provider `cartesia` does not restrict synthesis to that
provider: Cartesia is a member of `FALLBACK_ORDER`, so when it fails the
orchestrator falls back to ElevenLabs, emitting a switch notification
and ElevenLabs frames.  The claim that an explicit provider is tried
alone with no fallback is false. -/
theorem C3_counterexample :
    TTSv2.streamWithFallback ⟨cartesiaFailsOne, fishFailsOne, elevenOk, mockOff⟩
        none (some "cartesia") =
      [.audio ⟨"c0", 0, "pcm_16000", 16000, 1⟩ "cartesia",
       .switched "cartesia" "elevenlabs",
       .audio ⟨"e0", 0, "mp3", 44100, 1⟩ "elevenlabs",
       .audio ⟨"e1", 1, "mp3", 44100, 1⟩ "elevenlabs"] ∧
      "elevenlabs" ∈ TTS.audioProviders
        (TTSv2.streamWithFallback ⟨cartesiaFailsOne, fishFailsOne, elevenOk, mockOff⟩
          none (some "cartesia")) := by
  refine ⟨by decide, by decide⟩

/-- C3 (amended): an explicit provider outside the fixed chain is tried
alone (no fallback); an explicit provider inside the fixed chain starts
the walk at that provider with the later chain members still serving as
fallbacks; with no explicit provider the walk starts at the configured
primary; and a provider whose availability check reports false is
skipped.  The request's `tts_disable` set is not consulted by the
orchestrator. -/
theorem C3_theorem :
    (∀ (r : TTSv2.Registry) (p : String), p ≠ "" →
        TTSv2.FALLBACK_ORDER.contains p = false →
        TTSv2.streamWithFallback r none (some p) =
          TTSv2.runChain r [p] none none) ∧
      (∀ (r : TTSv2.Registry) (p : String),
        TTSv2.FALLBACK_ORDER.contains p = true →
        TTSv2.streamWithFallback r none (some p) =
          TTSv2.runChain r (p :: TTSv2.getFallbackChain p) none none) ∧
      (∀ (r : TTSv2.Registry) (n : String) (rest : List String)
        (start le : Option String) (q : TTS.ProviderBehavior),
        r.lookup n = some q → q.available = false →
        TTSv2.runChain r (n :: rest) start le =
          TTSv2.runChain r rest start le) := by
  refine ⟨?_, ?_, ?_⟩
  · intro r p hp hc
    have hmem : p ∉ TTSv2.FALLBACK_ORDER := by
      simpa using hc
    simp [TTSv2.streamWithFallback, jsStrTruthy, jsOrStr, hp, hc, hmem]
  · intro r p hc
    have hmem : p ∈ TTSv2.FALLBACK_ORDER := by
      simpa using hc
    have hp : p ≠ "" := by
      have hm := hmem
      simp only [TTSv2.FALLBACK_ORDER, List.mem_cons, List.mem_singleton,
        List.not_mem_nil, or_false] at hm
      rcases hm with rfl | rfl | rfl <;> decide
    simp [TTSv2.streamWithFallback, jsStrTruthy, jsOrStr, hp, hc, hmem]
  · intro r n rest start le q hl hq
    simp [TTSv2.runChain, hl, hq]

/-- C3 (witness): the amended theorem evaluated at a registry with
ElevenLabs unavailable: `mock` (outside the chain) is tried alone,
`cartesia` (inside the chain) starts the walk at itself with ElevenLabs
still appended, and the unavailable ElevenLabs is skipped. -/
theorem C3_witness :
    TTSv2.streamWithFallback ⟨cartesiaOk, fishFailsOne, elevenOff, mockOff⟩
        none (some "mock") =
        TTSv2.runChain ⟨cartesiaOk, fishFailsOne, elevenOff, mockOff⟩
          ["mock"] none none ∧
      TTSv2.streamWithFallback ⟨cartesiaOk, fishFailsOne, elevenOff, mockOff⟩
        none (some "cartesia") =
        TTSv2.runChain ⟨cartesiaOk, fishFailsOne, elevenOff, mockOff⟩
          ["cartesia", "elevenlabs"] none none ∧
      TTSv2.runChain ⟨cartesiaOk, fishFailsOne, elevenOff, mockOff⟩
        ["elevenlabs"] none none =
        TTSv2.runChain ⟨cartesiaOk, fishFailsOne, elevenOff, mockOff⟩ [] none none :=
  ⟨C3_theorem.1 ⟨cartesiaOk, fishFailsOne, elevenOff, mockOff⟩ "mock"
      (by decide) (by decide),
   C3_theorem.2.1 ⟨cartesiaOk, fishFailsOne, elevenOff, mockOff⟩ "cartesia"
      (by decide),
   C3_theorem.2.2 ⟨cartesiaOk, fishFailsOne, elevenOff, mockOff⟩ "elevenlabs"
      [] none none elevenOff rfl rfl⟩

/-! ## C4 — exhaustion of the whole chain -/

/-- A provider name that cannot serve a request: missing from the
registry, unavailable, or failing during its stream. -/
def TTSv2.skipsOrFails (r : TTSv2.Registry) (n : String) : Bool :=
  match r.lookup n with
  | none => true
  | some q => !q.available || q.fails.isSome

/-- The error carried by the `lastError` accumulator after walking the
chain: the error of the last available-and-failing provider, seeded with
`le`. -/
def TTSv2.lastFailMsg (r : TTSv2.Registry) :
    List String → Option String → Option String
  | [], le => le
  | n :: rest, le =>
    match r.lookup n with
    | none => TTSv2.lastFailMsg r rest le
    | some q =>
      if q.available then
        match q.fails with
        | some e => TTSv2.lastFailMsg r rest (some e)
        | none => TTSv2.lastFailMsg r rest le
      else TTSv2.lastFailMsg r rest le

/-- The terminal event the chain walk yields when every candidate was
skipped or failed. -/
def TTSv2.terminalError (r : TTSv2.Registry) (chain : List String)
    (le : Option String) : TTS.Event :=
  match TTSv2.lastFailMsg r chain le with
  | some e => .error e "all"
  | none => .error "No TTS providers available" "none"

/-- C4 (counterexample): with Fish Audio failing after one frame,
Cartesia failing after one frame and ElevenLabs unavailable, the
terminal outcome is the single event
`{type:'error', error: <cartesia's error>, provider:'all'}`: it carries
only the last failure — Fish Audio's error appears nowhere — rather
than naming all providers attempted together with each one's error, so
the claim is false. -/
theorem C4_counterexample :
    TTSv2.streamWithFallback ⟨cartesiaFailsOne, fishFailsOne, elevenOff, mockOff⟩
        none none =
      [.audio ⟨"f0", 0, "mp3", 44100, 1⟩ "fishaudio",
       .switched "fishaudio" "cartesia",
       .audio ⟨"c0", 0, "pcm_16000", 16000, 1⟩ "cartesia",
       .error "cartesia ws closed" "all"] ∧
      TTS.errorEvents
          (TTSv2.streamWithFallback ⟨cartesiaFailsOne, fishFailsOne, elevenOff, mockOff⟩
            none none) = [.error "cartesia ws closed" "all"] ∧
      TTS.Event.error "fishaudio timeout" "all" ∉
        TTSv2.streamWithFallback ⟨cartesiaFailsOne, fishFailsOne, elevenOff, mockOff⟩
          none none := by
  refine ⟨by decide, by decide, by decide⟩

/-- C4 (amended): when every candidate in the chain is missing,
unavailable, or fails, the chain walk ends with exactly one terminal
error event — carrying the most recent provider failure's error with
the provider field `'all'`, or a generic no-providers error with
`'none'` when nothing was attempted — and no audio frame or further
event follows it. -/
theorem C4_theorem (r : TTSv2.Registry) (chain : List String)
    (start le : Option String)
    (h : ∀ n ∈ chain, TTSv2.skipsOrFails r n = true) :
    ∃ pre, TTSv2.runChain r chain start le =
        pre ++ [TTSv2.terminalError r chain le] ∧
      TTS.errorEvents pre = [] := by
  induction chain generalizing start le with
  | nil =>
    refine ⟨[], ?_, rfl⟩
    cases le <;> rfl
  | cons n rest ih =>
    have hn := h n (List.mem_cons_self n rest)
    have hrest : ∀ m ∈ rest, TTSv2.skipsOrFails r m = true := by
      intro m hm
      exact h m (List.mem_cons_of_mem n hm)
    cases hl : r.lookup n with
    | none =>
      obtain ⟨pre, hpre, herr⟩ := ih start le hrest
      refine ⟨pre, ?_, herr⟩
      simp only [TTSv2.runChain, hl, TTSv2.terminalError, TTSv2.lastFailMsg]
      simpa [TTSv2.terminalError] using hpre
    | some q =>
      rw [TTSv2.skipsOrFails, hl] at hn
      by_cases hav : q.available
      · have hf : q.fails.isSome = true := by
          simpa [hav] using hn
        obtain ⟨e, he⟩ := Option.isSome_iff_exists.mp hf
        obtain ⟨pre, hpre, herr⟩ := ih (some (start.getD n)) (some e) hrest
        refine ⟨(match start with
          | none => ([] : List TTS.Event)
          | some s => [.switched s n]) ++
            q.frames.map (TTS.Event.audio · n) ++ pre, ?_, ?_⟩
        · simp only [TTSv2.runChain, hl, hav, he, Bool.not_true,
            Bool.false_eq_true, if_false]
          simp only [TTSv2.terminalError, TTSv2.lastFailMsg, hl, hav,
            if_true, he]
          rw [hpre]
          simp only [TTSv2.terminalError]
          cases start <;> simp
        · rw [TTS.errorEvents_append, TTS.errorEvents_append,
            TTS.errorEvents_map_audio, herr]
          cases start <;> simp [TTS.errorEvents]
      · have hv : q.available = false := by
          simpa using hav
        obtain ⟨pre, hpre, herr⟩ := ih start le hrest
        refine ⟨pre, ?_, herr⟩
        simp only [TTSv2.runChain, hl, hv]
        simp only [TTSv2.terminalError, TTSv2.lastFailMsg, hl, hv, if_false]
        rw [hpre]
        simp only [TTSv2.terminalError]
        simp

/-- C4 (witness): the amended theorem evaluated at the counterexample
registry over the default chain. -/
theorem C4_witness :
    ∃ pre, TTSv2.runChain ⟨cartesiaFailsOne, fishFailsOne, elevenOff, mockOff⟩
        ["fishaudio", "cartesia", "elevenlabs"] none none =
        pre ++ [TTSv2.terminalError ⟨cartesiaFailsOne, fishFailsOne, elevenOff, mockOff⟩
          ["fishaudio", "cartesia", "elevenlabs"] none] ∧
      TTS.errorEvents pre = [] :=
  C4_theorem ⟨cartesiaFailsOne, fishFailsOne, elevenOff, mockOff⟩
    ["fishaudio", "cartesia", "elevenlabs"] none none (by decide)

/-! ## C5 — speak rejection guards -/

/-- C5: on any connection state, an `assistant.speak` that arrives while
a speak stream is in flight is answered with exactly one
`ALREADY_SPEAKING` error and nothing else — it is not queued, no frame
is produced, and the state (hence the in-flight stream) is untouched;
an `assistant.speak` that arrives with no bound session is answered
with exactly one `NOT_BOUND` error, no frames, state untouched. -/
theorem C5_theorem (st : Handler.ClientState) (text : String)
    (events : List TTS.Event) :
    (st.isSpeaking = true →
      Handler.handleAssistantSpeak st text events =
        (st, [.errorMsg "ALREADY_SPEAKING" "Already speaking, wait for audio.end"])) ∧
      (st.isSpeaking = false → jsStrTruthy st.sessionId = false →
        Handler.handleAssistantSpeak st text events =
          (st, [.errorMsg "NOT_BOUND" "Call session.bind first"])) := by
  constructor
  · intro h
    simp [Handler.handleAssistantSpeak, h]
  · intro h1 h2
    simp [Handler.handleAssistantSpeak, h1, h2]

/-- C5 (witness): the guards evaluated on a speaking bound connection
and on a fresh unbound connection. -/
theorem C5_witness :
    Handler.handleAssistantSpeak ⟨some "u1", some "s1", true⟩ "hello"
        [.audio ⟨"m0", 0, "pcm_16000", 16000, 1⟩ "mock"] =
      (⟨some "u1", some "s1", true⟩,
        [.errorMsg "ALREADY_SPEAKING" "Already speaking, wait for audio.end"]) ∧
      Handler.handleAssistantSpeak ⟨none, none, false⟩ "hello" [] =
        (⟨none, none, false⟩, [.errorMsg "NOT_BOUND" "Call session.bind first"]) :=
  ⟨(C5_theorem ⟨some "u1", some "s1", true⟩ "hello"
      [.audio ⟨"m0", 0, "pcm_16000", 16000, 1⟩ "mock"]).1 rfl,
   (C5_theorem ⟨none, none, false⟩ "hello" []).2 rfl rfl⟩

/-! ## C6 — retryable versus fatal generation failures -/

/-- C6: in the generation chain walk, a failure classified retryable by
`shouldFallback` makes the loop continue with the next candidate
(recording the failure and marking fallback used), while a failure
classified fatal aborts the whole chain immediately, surfacing that
error with no remaining candidate attempted; network failures,
unauthorized (401/403), rate-limiting (429), server errors
(500/502/503/504) and "not configured" providers are retryable, and a
malformed-request failure (status 400, none of the retryable message
markers) is fatal. -/
theorem C6_theorem :
    (∀ (r : LLM.Registry) (cid n : String) (rest : List String)
        (errors : List (String × LLM.LLMError)) (fb : Bool)
        (p : LLM.ProviderBehavior) (e : LLM.LLMError),
        r.lookup n = some p → p.available = true → p.result = .error e →
        LLM.shouldFallback e = true →
        LLM.genLoop r cid (n :: rest) errors fb =
          LLM.genLoop r cid rest (errors ++ [(n, e)]) true) ∧
      (∀ (r : LLM.Registry) (cid n : String) (rest : List String)
        (errors : List (String × LLM.LLMError)) (fb : Bool)
        (p : LLM.ProviderBehavior) (e : LLM.LLMError),
        r.lookup n = some p → p.available = true → p.result = .error e →
        LLM.shouldFallback e = false →
        LLM.genLoop r cid (n :: rest) errors fb = .fatal e) ∧
      (∀ e : LLM.LLMError,
        (e.status = some 401 ∨ e.status = some 403 ∨ e.status = some 429 ∨
          e.status = some 500 ∨ e.status = some 502 ∨ e.status = some 503 ∨
          e.status = some 504 ∨ LLM.strIncludes e.message "fetch" = true ∨
          LLM.strIncludes e.message "network" = true ∨
          LLM.strIncludes e.message "not configured" = true) →
        LLM.shouldFallback e = true) ∧
      (∀ e : LLM.LLMError,
        LLM.strIncludes e.message "fetch" = false →
        LLM.strIncludes e.message "network" = false →
        LLM.strIncludes e.message "not configured" = false →
        e.status = some 400 →
        LLM.shouldFallback e = false) := by
  refine ⟨?_, ?_, ?_, ?_⟩
  · intro r cid n rest errors fb p e hl hav hres hsf
    simp [LLM.genLoop, hl, hav, hres, hsf]
  · intro r cid n rest errors fb p e hl hav hres hsf
    simp [LLM.genLoop, hl, hav, hres, hsf]
  · intro e h
    rcases h with h | h | h | h | h | h | h | h | h | h <;>
      cases hf : LLM.strIncludes e.message "fetch" <;>
      cases hn : LLM.strIncludes e.message "network" <;>
      simp [LLM.shouldFallback, LLM.FALLBACK_ERROR_CODES, h, hf, hn]
  · intro e hf hn hnc h400
    simp [LLM.shouldFallback, LLM.FALLBACK_ERROR_CODES, hf, hn, hnc, h400]

/-- A retryable-failure OpenAI behavior (rate limited). -/
def openaiRetryFails : LLM.ProviderBehavior := ⟨true, .error ⟨"rate limited", some 429⟩⟩

/-- A fatal-failure OpenAI behavior (malformed request). -/
def openaiFatalFails : LLM.ProviderBehavior := ⟨true, .error ⟨"bad request", some 400⟩⟩

/-- A Gemini behavior that succeeds. -/
def geminiOkResp : LLM.ProviderBehavior :=
  ⟨true, .ok [("content", .str "hello"), ("provider", .str "gemini")]⟩

/-- A Gemini behavior with a retryable network failure. -/
def geminiNetFails : LLM.ProviderBehavior := ⟨true, .error ⟨"fetch failed", none⟩⟩

/-- An unavailable mock LLM provider. -/
def mockLLMOff : LLM.ProviderBehavior := ⟨false, .ok []⟩

/-- C6 (witness): the classification and both loop behaviors evaluated
on concrete providers: a 429 continues to Gemini, a 400 aborts the
chain at once. -/
theorem C6_witness :
    LLM.genLoop ⟨mockLLMOff, openaiRetryFails, geminiOkResp⟩ "cid-6"
        ["openai", "gemini"] [] false =
      LLM.genLoop ⟨mockLLMOff, openaiRetryFails, geminiOkResp⟩ "cid-6"
        ["gemini"] [("openai", ⟨"rate limited", some 429⟩)] true ∧
      LLM.genLoop ⟨mockLLMOff, openaiFatalFails, geminiOkResp⟩ "cid-6"
        ["openai", "gemini"] [] false = .fatal ⟨"bad request", some 400⟩ ∧
      LLM.shouldFallback ⟨"rate limited", some 429⟩ = true ∧
      LLM.shouldFallback ⟨"bad request", some 400⟩ = false :=
  ⟨C6_theorem.1 ⟨mockLLMOff, openaiRetryFails, geminiOkResp⟩ "cid-6" "openai"
      ["gemini"] [] false openaiRetryFails ⟨"rate limited", some 429⟩
      rfl rfl rfl (by decide),
   C6_theorem.2.1 ⟨mockLLMOff, openaiFatalFails, geminiOkResp⟩ "cid-6" "openai"
      ["gemini"] [] false openaiFatalFails ⟨"bad request", some 400⟩
      rfl rfl rfl (by decide),
   C6_theorem.2.2.1 ⟨"rate limited", some 429⟩ (by decide),
   C6_theorem.2.2.2 ⟨"bad request", some 400⟩ (by decide) (by decide)
      (by decide) rfl⟩

/-! ## C7 — shape of the successful generation result -/

/-- C7 (counterexample): with OpenAI failing retryably (429) and Gemini
succeeding, the returned object is exactly
`{content, provider, fallback_used, correlation_id}`: it carries the
fallback flag but no field holding the cumulative list of earlier
failures — OpenAI's recorded error appears nowhere in the returned
value — so the claim that the success result includes the failure list
is false. -/
theorem C7_counterexample :
    LLM.generateWithFallback ⟨mockLLMOff, openaiRetryFails, geminiOkResp⟩
        false none "cid-7" =
      .ok [("content", .str "hello"), ("provider", .str "gemini"),
           ("fallback_used", .bool true), ("correlation_id", .str "cid-7")] ∧
      ([("content", JVal.str "hello"), ("provider", JVal.str "gemini"),
        ("fallback_used", JVal.bool true),
        ("correlation_id", JVal.str "cid-7")].map Prod.fst =
        ["content", "provider", "fallback_used", "correlation_id"]) ∧
      (([("content", JVal.str "hello"), ("provider", JVal.str "gemini"),
        ("fallback_used", JVal.bool true),
        ("correlation_id", JVal.str "cid-7")] : JObj).all
          (fun kv => match kv.2 with | .arr _ => false | _ => true) = true) :=
  ⟨rfl, rfl, rfl⟩

/-- C7 (amended): on success the generation orchestrator returns the
first successful provider response extended with only the
`fallback_used` flag and the `correlation_id`; the cumulative
per-provider failure list is attached only to the aggregated error
thrown when every provider fails. -/
theorem C7_theorem (r : LLM.Registry) (cid : String) (e1 e2 : LLM.LLMError)
    (resp : JObj)
    (h1 : r.openai.available = true) (h2 : r.openai.result = .error e1)
    (h3 : LLM.shouldFallback e1 = true)
    (h4 : r.gemini.available = true) :
    (r.gemini.result = .ok resp →
      LLM.generateWithFallback r false none cid =
        .ok (LLM.setKey (LLM.setKey resp "fallback_used" (.bool true))
          "correlation_id" (.str cid))) ∧
      (r.gemini.result = .error e2 → LLM.shouldFallback e2 = true →
        LLM.generateWithFallback r false none cid =
          .exhausted [("openai", e1), ("gemini", e2)]) := by
  constructor
  · intro h5
    simp [LLM.generateWithFallback, LLM.genLoop, LLM.Registry.lookup,
      LLM.LLM_FALLBACK_ORDER, jsStrTruthy, h1, h2, h3, h4, h5]
  · intro h5 h6
    simp [LLM.generateWithFallback, LLM.genLoop, LLM.Registry.lookup,
      LLM.LLM_FALLBACK_ORDER, jsStrTruthy, h1, h2, h3, h4, h5, h6]

/-- C7 (witness): the amended theorem evaluated with a 429 at OpenAI
and a successful (respectively network-failing) Gemini. -/
theorem C7_witness :
    LLM.generateWithFallback ⟨mockLLMOff, openaiRetryFails, geminiOkResp⟩
        false none "cid-7w" =
      .ok (LLM.setKey (LLM.setKey [("content", .str "hello"),
        ("provider", .str "gemini")] "fallback_used" (.bool true))
        "correlation_id" (.str "cid-7w")) ∧
      LLM.generateWithFallback ⟨mockLLMOff, openaiRetryFails, geminiNetFails⟩
        false none "cid-7w" =
      .exhausted [("openai", ⟨"rate limited", some 429⟩),
        ("gemini", ⟨"fetch failed", none⟩)] :=
  ⟨(C7_theorem ⟨mockLLMOff, openaiRetryFails, geminiOkResp⟩ "cid-7w"
      ⟨"rate limited", some 429⟩ ⟨"fetch failed", none⟩
      [("content", .str "hello"), ("provider", .str "gemini")]
      rfl rfl (by decide) rfl).1 rfl,
   (C7_theorem ⟨mockLLMOff, openaiRetryFails, geminiNetFails⟩ "cid-7w"
      ⟨"rate limited", some 429⟩ ⟨"fetch failed", none⟩
      [("content", .str "hello"), ("provider", .str "gemini")]
      rfl rfl (by decide) rfl).2 rfl (by decide)⟩

/-! ## C8 — total validation in the frame codec -/

/-- The validation rules as the specification states them: a recognized
type string is required; `session.bind` requires both identifier fields
present and non-empty (truthy); `assistant.speak` requires a non-empty
string `text`; `ping` needs nothing more.  Compared against
`parseClientMessage` below. -/
def Protocol.specValid (j : JVal) : Bool :=
  match jsGet j "type" with
  | some (.str s) =>
    if s = "session.bind" then
      jsTruthy (jsGet j "user_id") && jsTruthy (jsGet j "session_id")
    else if s = "assistant.speak" then
      match jsGet j "text" with
      | some (.str t) => t ≠ ""
      | _ => false
    else if s = "ping" then true
    else false
  | _ => false

/-- C8: the client-message parser is total by construction (every
input, JSON or not, yields a `ParseResult`); it accepts exactly the
messages the validation rules accept — non-JSON input, a top-level
`null`, a missing or unrecognized type, a `session.bind` missing either
identifier, and an `assistant.speak` whose `text` is missing, empty or
not a string are rejected — and it returns the parsed message on
success and a structured decode failure (message absent, error message
present) on rejection. -/
theorem C8_theorem (parsed : Option JVal) :
    (Protocol.parseClientMessage parsed).valid =
        (match parsed with
          | none => false
          | some .null => false
          | some j => Protocol.specValid j) ∧
      ((Protocol.parseClientMessage parsed).valid = true ∧
          (Protocol.parseClientMessage parsed).message = parsed ∧
          (Protocol.parseClientMessage parsed).error = none ∨
        (Protocol.parseClientMessage parsed).valid = false ∧
          (Protocol.parseClientMessage parsed).message = none ∧
          (Protocol.parseClientMessage parsed).error.isSome = true) := by
  match parsed with
  | none => exact ⟨rfl, Or.inr ⟨rfl, rfl, rfl⟩⟩
  | some .null => exact ⟨rfl, Or.inr ⟨rfl, rfl, rfl⟩⟩
  | some (.str s) => exact ⟨rfl, Or.inr ⟨rfl, rfl, rfl⟩⟩
  | some (.num n) => exact ⟨rfl, Or.inr ⟨rfl, rfl, rfl⟩⟩
  | some (.bool b) => exact ⟨rfl, Or.inr ⟨rfl, rfl, rfl⟩⟩
  | some (.arr xs) => exact ⟨rfl, Or.inr ⟨rfl, rfl, rfl⟩⟩
  | some (.obj fields) =>
    constructor
    · simp only [Protocol.parseClientMessage, Protocol.specValid]
      cases hty : jsGet (JVal.obj fields) "type" with
      | none => simp [jsTruthy]
      | some v =>
        cases v with
        | str s =>
          by_cases hs : s = ""
          · subst hs
            simp [jsTruthy, JVal.truthy]
          · have ht : jsTruthy (some (JVal.str s)) = true := by
              simp [jsTruthy, JVal.truthy, hs]
            by_cases h1 : s = "session.bind"
            · subst h1
              simp only [ht, Bool.not_true, Bool.false_eq_true, if_false]
              cases hu : jsTruthy (jsGet (JVal.obj fields) "user_id") <;>
                cases hsid : jsTruthy (jsGet (JVal.obj fields) "session_id") <;>
                simp [hu, hsid]
            · by_cases h2 : s = "assistant.speak"
              · subst h2
                simp only [ht, Bool.not_true, Bool.false_eq_true, if_false, h1,
                  if_true]
                cases htx : jsGet (JVal.obj fields) "text" with
                | none => simp [jsTruthy, h1]
                | some w =>
                  cases w with
                  | str t =>
                    by_cases hts : t = "" <;>
                      simp [jsTruthy, JVal.truthy, hts, h1]
                  | _ => simp [jsTruthy, JVal.truthy, h1]
              · by_cases h3 : s = "ping"
                · subst h3
                  simp [ht, h1, h2]
                · simp [ht, h1, h2, h3]
        | num n =>
          cases hn : jsTruthy (some (JVal.num n)) <;> simp [hn]
        | bool b =>
          cases hb : jsTruthy (some (JVal.bool b)) <;> simp [hb]
        | null => simp [jsTruthy, JVal.truthy]
        | arr xs => simp [jsTruthy, JVal.truthy]
        | obj gs => simp [jsTruthy, JVal.truthy]
    · simp only [Protocol.parseClientMessage]
      cases hty : jsGet (JVal.obj fields) "type" with
      | none => exact Or.inr ⟨rfl, rfl, rfl⟩
      | some v =>
        cases hv : jsTruthy (some v) with
        | false => simp [hv]
        | true =>
          cases v with
          | str s =>
            by_cases h1 : s = "session.bind"
            · subst h1
              by_cases hcond : (!jsTruthy (jsGet (JVal.obj fields) "user_id") ||
                  !jsTruthy (jsGet (JVal.obj fields) "session_id")) = true
              · simp [hv, hcond]
              · simp [hv, hcond]
            · by_cases h2 : s = "assistant.speak"
              · subst h2
                by_cases hcond : (!jsTruthy (jsGet (JVal.obj fields) "text") ||
                    (match jsGet (JVal.obj fields) "text" with
                      | some (.str _) => false
                      | _ => true)) = true
                · simp [hv, h1, hcond]
                · simp [hv, h1, hcond]
              · by_cases h3 : s = "ping"
                · subst h3
                  simp [hv, h1, h2]
                · simp [hv, h1, h2, h3]
          | num n => simp [hv]
          | bool b => simp [hv]
          | null => simp [hv]
          | arr xs => simp [hv]
          | obj gs => simp [hv]

/-! ## C9 — determinism of the mock synthesis provider -/

/-- Helper for C9: the frame list of the mock stream loop does not
depend on the awaited latencies. -/
theorem MockTTS.streamLoop_delays (sine : Nat → Nat → Nat → String) (freq : Nat) :
    ∀ (rem : Nat) (d1 d2 : List Nat) (s off : Nat),
      MockTTS.streamLoop sine freq d1 rem s off =
        MockTTS.streamLoop sine freq d2 rem s off := by
  intro rem
  induction rem with
  | zero => intro d1 d2 s off; rfl
  | succ r ih =>
    intro d1 d2 s off
    simp only [MockTTS.streamLoop]
    exact congrArg _ (ih d1.tail d2.tail (s + 1) (off + MockTTS.CHUNK_SAMPLES))

/-- Helper for C9: the sequence numbers of the mock stream loop count
up from the starting counter. -/
theorem MockTTS.streamLoop_seqs (sine : Nat → Nat → Nat → String) (freq : Nat) :
    ∀ (rem : Nat) (d : List Nat) (s off : Nat),
      (MockTTS.streamLoop sine freq d rem s off).map (·.seq) =
        List.range' s rem := by
  intro rem
  induction rem with
  | zero => intro d s off; rfl
  | succ r ih =>
    intro d s off
    simp only [MockTTS.streamLoop, List.map_cons, List.range']
    exact congrArg _ (ih d.tail (s + 1) (off + MockTTS.CHUNK_SAMPLES))

/-- Helper for C9: every frame of the mock stream loop started at
counter `s` and offset `s * CHUNK_SAMPLES` carries the mock codec
metadata and the sine chunk determined by its own sequence number. -/
theorem MockTTS.streamLoop_frames (sine : Nat → Nat → Nat → String) (freq : Nat) :
    ∀ (rem : Nat) (d : List Nat) (s : Nat),
      ∀ f ∈ MockTTS.streamLoop sine freq d rem s (s * MockTTS.CHUNK_SAMPLES),
        f.codec = "pcm_16000" ∧ f.sample_rate_hz = 16000 ∧ f.channels = 1 ∧
          f.data = sine freq MockTTS.CHUNK_SAMPLES (f.seq * MockTTS.CHUNK_SAMPLES) := by
  intro rem
  induction rem with
  | zero => intro d s f hf; cases hf
  | succ r ih =>
    intro d s f hf
    rw [MockTTS.streamLoop] at hf
    rcases List.mem_cons.mp hf with rfl | hf'
    · exact ⟨rfl, rfl, rfl, rfl⟩
    · have : s * MockTTS.CHUNK_SAMPLES + MockTTS.CHUNK_SAMPLES =
          (s + 1) * MockTTS.CHUNK_SAMPLES := by ring
      rw [this] at hf'
      exact ih d.tail (s + 1) f hf'

/-- C9: the mock provider is deterministic — for the same text, two
runs with any random latency draws yield identical frame lists (same
frame count, byte-identical data at each sequence number, identical
metadata); moreover the sequence numbers are exactly `0..totalChunks-1`
and every frame carries the fixed `pcm_16000`/16 kHz/mono metadata and
the sine chunk determined by the text alone. -/
theorem C9_theorem (sine : Nat → Nat → Nat → String) (enabled : Bool)
    (text : String) (d1 d2 : List Nat) :
    MockTTS.stream sine enabled text d1 = MockTTS.stream sine enabled text d2 ∧
      ((MockTTS.stream sine true text d1).getD []).map (·.seq) =
        List.range (MockTTS.totalChunks text) ∧
      ∀ f ∈ (MockTTS.stream sine true text d1).getD [],
        f.codec = "pcm_16000" ∧ f.sample_rate_hz = 16000 ∧ f.channels = 1 ∧
          f.data = sine (MockTTS.frequency text) MockTTS.CHUNK_SAMPLES
            (f.seq * MockTTS.CHUNK_SAMPLES) := by
  refine ⟨?_, ?_, ?_⟩
  · cases enabled with
    | false => rfl
    | true =>
      simp only [MockTTS.stream, Bool.not_true, Bool.false_eq_true, if_false]
      exact congrArg _ (MockTTS.streamLoop_delays sine (MockTTS.frequency text)
        (MockTTS.totalChunks text) d1 d2 0 0)
  · simp only [MockTTS.stream, Bool.not_true, Bool.false_eq_true, if_false,
      Option.getD_some]
    rw [MockTTS.streamLoop_seqs, List.range_eq_range']
  · simp only [MockTTS.stream, Bool.not_true, Bool.false_eq_true, if_false,
      Option.getD_some]
    have h0 : (0 : Nat) = 0 * MockTTS.CHUNK_SAMPLES := by ring
    intro f hf
    rw [h0] at hf
    exact MockTTS.streamLoop_frames sine (MockTTS.frequency text)
      (MockTTS.totalChunks text) d1 0 f hf

/-- C9 (witness): the theorem evaluated at the text `"Hello world"`
(10 chunks) with a concrete sine table and latency draws, applied to
the stream's first frame. -/
theorem C9_witness :
    MockTTS.stream (fun _ _ off => toString off) true "Hello world" [12, 17] =
        MockTTS.stream (fun _ _ off => toString off) true "Hello world" [29] ∧
      (⟨"0", 0, "pcm_16000", 16000, 1⟩ : TTS.AudioFrame).codec = "pcm_16000" ∧
        (⟨"0", 0, "pcm_16000", 16000, 1⟩ : TTS.AudioFrame).sample_rate_hz = 16000 ∧
        (⟨"0", 0, "pcm_16000", 16000, 1⟩ : TTS.AudioFrame).channels = 1 ∧
        (⟨"0", 0, "pcm_16000", 16000, 1⟩ : TTS.AudioFrame).data =
          (fun (_ _ off : Nat) => toString off) (MockTTS.frequency "Hello world")
            MockTTS.CHUNK_SAMPLES
            ((⟨"0", 0, "pcm_16000", 16000, 1⟩ : TTS.AudioFrame).seq *
              MockTTS.CHUNK_SAMPLES) :=
  ⟨(C9_theorem (fun _ _ off => toString off) true "Hello world" [12, 17] [29]).1,
   (C9_theorem (fun _ _ off => toString off) true "Hello world" [12, 17] [29]).2.2
     ⟨"0", 0, "pcm_16000", 16000, 1⟩ (by decide)⟩

/-! ## C10 — wire fields of `audio.end` and `provider.switched` -/

/-- C10: every `audio.end` the handler actually serializes contains
exactly the fields `type`, `total_frames`, `provider`, `timestamp`, and
every `provider.switched` exactly `type`, `from`, `to`, `timestamp`:
the extra codec, sample-rate, channels and correlation-id arguments the
handler passes are dropped by the two-parameter codec constructors and
never influence the wire object. -/
theorem C10_theorem (frameCnt : Nat) (provider src dst : String)
    (codec codec' : Option String) (sampleRate sampleRate' : Option Nat)
    (channels channels' : Option Nat) (cid cid' : String) (ts : String) :
    (Protocol.handlerAudioEndCall frameCnt provider codec sampleRate channels
        cid ts).map Prod.fst = ["type", "total_frames", "provider", "timestamp"] ∧
      Protocol.handlerAudioEndCall frameCnt provider codec sampleRate channels
          cid ts =
        Protocol.handlerAudioEndCall frameCnt provider codec' sampleRate'
          channels' cid' ts ∧
      (Protocol.handlerProviderSwitchedCall src dst cid ts).map Prod.fst =
        ["type", "from", "to", "timestamp"] ∧
      Protocol.handlerProviderSwitchedCall src dst cid ts =
        Protocol.handlerProviderSwitchedCall src dst cid' ts :=
  ⟨rfl, rfl, rfl, rfl⟩
